import Mathlib

/-!
Verification of the repository's list package (`ArrayList.js`) and the stack
skeleton, as a shallow embedding in Lean 4.

Modelling conventions:
* JavaScript values are modelled by the fragment `JSVal` (null, undefined,
  integer numbers, NaN, booleans, strings).  The claims only ever store
  integer numbers in the containers; the other constructors are needed for
  the truthiness / equality semantics of the guards.
* The sealed backing array (`Object.seal` on an array of nulls) is a
  `List JSVal` of fixed length: reading out of bounds yields `undefined`
  (`storGet`), writing out of bounds is silently ignored (`storSet`, which
  is `List.set` and is a no-op past the end, exactly the sloppy-mode
  behaviour of a sealed array).
* `throw` of a message string is modelled by `Except.error` carrying a
  constructor of `JSErr` that identifies the thrown message and its data.
* Each `for` loop is translated to a fold over the exact sequence of index
  values the loop visits, or to structural recursion for the down-counting
  loop of `insert`.
-/

/-- The fragment of JavaScript values that the containers manipulate. -/
inductive JSVal where
  | vnull
  | vundef
  | num (n : Int)
  | nan
  | bool (b : Bool)
  | str (s : String)
  deriving DecidableEq, Repr

/-- JavaScript truthiness: `!item` in the source is `truthy item = false`.
Falsy values are `null`, `undefined`, `0`, `NaN`, `false` and `""`. -/
def truthy : JSVal → Bool
  | .vnull => false
  | .vundef => false
  | .num n => n != 0
  | .nan => false
  | .bool b => b
  | .str s => s != ""

/-- JavaScript strict equality `===` on the modelled fragment: structural
equality, except that `NaN` is not equal to anything (including itself). -/
def strictEq (a b : JSVal) : Bool :=
  match a, b with
  | .nan, _ => false
  | _, .nan => false
  | a, b => a == b

/-- JavaScript `ToNumber` on the modelled fragment, with `none` playing the
role of `NaN`.  Strings are modelled for the integer-literal fragment:
the empty string converts to `0`, decimal integer literals to their value,
anything else to `NaN`. -/
def toNum : JSVal → Option Int
  | .num n => some n
  | .nan => none
  | .bool b => some (if b then 1 else 0)
  | .str s => if s = "" then some 0 else s.toInt?
  | .vnull => some 0
  | .vundef => none

/-- JavaScript loose equality `==` (the source's `!=` in `removeItem` is its
negation): `null`/`undefined` are loosely equal only to each other, two
strings compare as strings, and the remaining comparisons go through
`ToNumber`, with `NaN` unequal to everything. -/
def looseEq (a b : JSVal) : Bool :=
  match a, b with
  | .vnull, .vnull => true
  | .vnull, .vundef => true
  | .vundef, .vnull => true
  | .vundef, .vundef => true
  | .vnull, _ => false
  | .vundef, _ => false
  | _, .vnull => false
  | _, .vundef => false
  | .str s, .str t => s == t
  | a, b =>
    match toNum a, toNum b with
    | some x, some y => x == y
    | _, _ => false

/-- The messages thrown by the source, as tagged errors. -/
inductive JSErr where
  /-- insert: % is an invalid item. Please try again. -/
  | invalidItem (item : JSVal)
  /-- insert: % is not available. The next available index is %. -/
  | indexNotAvailable (i : Int) (next : Nat)
  /-- remove: There is nothing to remove in this list. -/
  | nothingToRemove
  /-- remove: % is outside the bounds of this list. -/
  | outsideBounds (i : Int)
  /-- peek: This list is empty. -/
  | listEmpty
  /-- peek: % is outside the bounds of the list. -/
  | outsideBoundsPeek (i : Int)
  /-- contains: % is an invalid choice. Please try again. -/
  | invalidChoice (item : JSVal)
  deriving DecidableEq, Repr

/-- Read `storage[i]` on a sealed array: out of bounds gives `undefined`. -/
def storGet (l : List JSVal) (i : Nat) : JSVal := l.getD i JSVal.vundef

/-- Write `storage[i] = v` on a sealed array: out of bounds is silently
ignored (which is exactly `List.set`). -/
def storSet (l : List JSVal) (i : Nat) (v : JSVal) : List JSVal := l.set i v

/-- `ArrayList.getArray(size)`: a sealed array of `size` nulls. -/
def getArray (size : Nat) : List JSVal := List.replicate size JSVal.vnull

/-- The `ArrayList` state: the sealed backing buffer and the element count. -/
structure ArrayList where
  _storage : List JSVal
  _size : Nat
  deriving DecidableEq, Repr

/-- `new ArrayList(initialCapacity)` (the JS default argument is 10). -/
def mkArrayList (initialCapacity : Nat) : ArrayList :=
  { _storage := getArray initialCapacity, _size := 0 }

/-- `_expand()`: allocate a buffer of double length and copy every old slot
across (`for (let i = 0; i < this._storage.length; i++)`). -/
def ArrayList._expand (l : ArrayList) : ArrayList :=
  { l with
    _storage :=
      (List.range l._storage.length).foldl
        (fun d i => storSet d i (storGet l._storage i))
        (getArray (l._storage.length * 2)) }

/-- The shift loop of `insert`:
`for (let current = this._size; current > 0; current--)
   this._storage[current] = this._storage[current - 1]`.
Note that the source's loop bound is `current > 0`, independent of the
insertion index `i`. -/
def insertShift (storage : List JSVal) : Nat → List JSVal
  | 0 => storage
  | c + 1 => insertShift (storSet storage (c + 1) (storGet storage c)) c

/-- The capacity check at the top of `insert`'s main path:
`if (this._size === this._storage.length) this._expand();` — the state of
`this` after that statement. -/
def ArrayList.ensureCapacity (l : ArrayList) : ArrayList :=
  if l._size = l._storage.length then l._expand else l

/-- `insert(i, item)`. -/
def ArrayList.insert (l : ArrayList) (i : Int) (item : JSVal) :
    Except JSErr ArrayList :=
  if truthy item = false then
    .error (.invalidItem item)
  else if (l._size : Int) < i ∨ i < 0 then
    .error (.indexNotAvailable i l._size)
  else
    .ok { _storage := storSet
            (insertShift l.ensureCapacity._storage l.ensureCapacity._size)
            i.toNat item,
          _size := l.ensureCapacity._size + 1 }

/-- `append(item)`, i.e. `insert(this._size, item)`. -/
def ArrayList.append (l : ArrayList) (item : JSVal) : Except JSErr ArrayList :=
  l.insert (l._size : Int) item

/-- `prepend(item)`, i.e. `insert(0, item)`. -/
def ArrayList.prepend (l : ArrayList) (item : JSVal) : Except JSErr ArrayList :=
  l.insert 0 item

/-- The shift loop of `remove`:
`for (let current = i; current < this._size; current++)
   this._storage[current] = this._storage[current + 1]`,
as a fold over the visited index values `i, i+1, ..., size-1`. -/
def removeShift (storage : List JSVal) (i sz : Nat) : List JSVal :=
  (List.range' i (sz - i)).foldl
    (fun st c => storSet st c (storGet st (c + 1))) storage

/-- `remove(i)`: remove and return the item at `i`. -/
def ArrayList.remove (l : ArrayList) (i : Int) :
    Except JSErr (JSVal × ArrayList) :=
  if l._size = 0 then
    .error .nothingToRemove
  else if (l._size : Int) ≤ i ∨ i < 0 then
    .error (.outsideBounds i)
  else
    .ok (storGet l._storage i.toNat,
         { l with _storage := removeShift l._storage i.toNat l._size,
                  _size := l._size - 1 })

/-- The shift loop of `removeFirst`:
`for (let i = 1; i < this._storage.length; i++)
   this._storage[i - 1] = this._storage[i]`,
as a fold over the visited index values `1, ..., length-1`. -/
def removeFirstShift (storage : List JSVal) : List JSVal :=
  (List.range' 1 (storage.length - 1)).foldl
    (fun st i => storSet st (i - 1) (storGet st i)) storage

/-- `removeFirst()`: returns `null` on an empty list, otherwise the first
item; the whole buffer (not just `[0, size)`) is shifted left. -/
def ArrayList.removeFirst (l : ArrayList) : JSVal × ArrayList :=
  if l._size = 0 then
    (JSVal.vnull, l)
  else
    (storGet l._storage 0,
     { l with _storage := removeFirstShift l._storage, _size := l._size - 1 })

/-- `removeLast()`: returns `null` on an empty list, otherwise the last item,
nulling out its slot. -/
def ArrayList.removeLast (l : ArrayList) : JSVal × ArrayList :=
  if l._size = 0 then
    (JSVal.vnull, l)
  else
    (storGet l._storage (l._size - 1),
     { l with _storage := storSet l._storage (l._size - 1) JSVal.vnull,
              _size := l._size - 1 })

/-- `removeItem(item)`: `-1` for a falsy argument; otherwise scan the whole
buffer (`i < this._storage.length`) for the first slot loosely equal
(`!=` negated) to `item`, call `this.remove(i)` (whose exception, if any,
propagates) and return the index. -/
def ArrayList.removeItem (l : ArrayList) (item : JSVal) :
    Except JSErr (Int × ArrayList) :=
  if truthy item = false then
    .ok (-1, l)
  else
    match (List.range l._storage.length).find?
        (fun i => looseEq (storGet l._storage i) item) with
    | some i =>
      match l.remove (i : Int) with
      | .ok p => .ok ((i : Int), p.2)
      | .error e => .error e
    | none => .ok (-1, l)

/-- `contains(item)`: throws on a falsy argument; otherwise scans the whole
buffer (`i < this._storage.length`) with strict equality `===`. -/
def ArrayList.contains (l : ArrayList) (item : JSVal) : Except JSErr Bool :=
  if truthy item = false then
    .error (.invalidChoice item)
  else
    .ok ((List.range l._storage.length).any
      (fun i => strictEq (storGet l._storage i) item))

/-- `peek(i)`: the item at `i`, with the empty and bounds checks. -/
def ArrayList.peek (l : ArrayList) (i : Int) : Except JSErr JSVal :=
  if l._size = 0 then
    .error .listEmpty
  else if (l._size : Int) ≤ i ∨ i < 0 then
    .error (.outsideBoundsPeek i)
  else
    .ok (storGet l._storage i.toNat)

/-- `size()`. -/
def ArrayList.size (l : ArrayList) : Nat := l._size

/-- `sort(comparator)`: the body in the source is empty, so the list is
left exactly as it was. -/
def ArrayList.sort (l : ArrayList) (comparator : JSVal → JSVal → Int) :
    ArrayList :=
  l

/-- `sorted(comparator)`: the body in the source is `return new ArrayList()`,
a fresh empty list of the default capacity 10. -/
def ArrayList.sorted (l : ArrayList) (comparator : JSVal → JSVal → Int) :
    ArrayList :=
  mkArrayList 10

/-- `toArray()`: the occupied slots `storage[0] .. storage[size-1]` in order
(the source's spread-append accumulation builds exactly this list). -/
def ArrayList.toArray (l : ArrayList) : List JSVal :=
  if l._size = 0 then []
  else (List.range l._size).map (fun i => storGet l._storage i)

/-- The states an ArrayList can actually be in: the constructor's capacity
is a positive integer (spec section 6) and the count never exceeds the
buffer length. -/
def WF (l : ArrayList) : Prop :=
  0 < l._storage.length ∧ l._size ≤ l._storage.length

instance (l : ArrayList) : Decidable (WF l) := by
  unfold WF; infer_instance

/-- The `Stack` class has no constructor state: every method body in the
source is empty, so each call leaves the (empty) state unchanged and
returns JavaScript `undefined`. -/
structure Stack

/-- `push(item)`: empty body, returns `undefined`. -/
def Stack.push (s : Stack) (item : JSVal) : Stack × JSVal := (s, JSVal.vundef)

/-- `pop()`: empty body, returns `undefined` (no exception is thrown). -/
def Stack.pop (s : Stack) : Stack × JSVal := (s, JSVal.vundef)

/-- `isEmpty()`: empty body, returns `undefined`. -/
def Stack.isEmpty (s : Stack) : JSVal := JSVal.vundef

/-- The list reached by `new ArrayList(2); append(1)`. -/
def listCap2One : ArrayList := { _storage := [JSVal.num 1, JSVal.vnull], _size := 1 }

/-- The list reached by `new ArrayList(2); append(1); append(2)`. -/
def listCap2Two : ArrayList := { _storage := [JSVal.num 1, JSVal.num 2], _size := 2 }

/-- The list reached by `new ArrayList(2); append(1); append(2); append(3)`:
the buffer has doubled to capacity 4, but the shift loop of `insert`
(which runs down to index 1 regardless of the insertion index) has
overwritten slot 1 with a copy of slot 0. -/
def listCap2Three : ArrayList :=
  { _storage := [JSVal.num 1, JSVal.num 1, JSVal.num 3, JSVal.vnull], _size := 3 }

/-- The list reached by `new ArrayList(1); append(5)`: a full buffer. -/
def listCap1Full : ArrayList := { _storage := [JSVal.num 5], _size := 1 }

/-- The state reached by `new ArrayList(1); append(5); removeFirst()`:
the size is 0 but the shift loop of `removeFirst` never cleared slot 0,
so the stale item 5 is still in the buffer. -/
def listCap1Stale : ArrayList := { _storage := [JSVal.num 5], _size := 0 }

/-- Claim C1: on `new ArrayList(2)`, the calls `append(1); append(2);
append(3)` all succeed, and afterwards `size()` is 3 and the capacity has
doubled to 4 — but `toArray()` is `[1,1,3]`, not the claimed `[1,2,3]`:
the shift loop of `insert` runs down to index 1 instead of stopping at the
insertion index, so the third `append` duplicates element 0 over element 1. -/
theorem append_scenario_capacity_two :
    ArrayList.append (mkArrayList 2) (JSVal.num 1) = Except.ok listCap2One ∧
    ArrayList.append listCap2One (JSVal.num 2) = Except.ok listCap2Two ∧
    ArrayList.append listCap2Two (JSVal.num 3) = Except.ok listCap2Three ∧
    ArrayList.size listCap2Three = 3 ∧
    listCap2Three._storage.length = 2 * 2 ∧
    ArrayList.toArray listCap2Three = [JSVal.num 1, JSVal.num 1, JSVal.num 3] ∧
    ArrayList.toArray listCap2Three ≠ [JSVal.num 1, JSVal.num 2, JSVal.num 3] :=
  ⟨rfl, rfl, rfl, rfl, rfl, rfl, by decide⟩

/-- Claim C2: on the reachable list `[1,2]` (built by two appends into
`new ArrayList(2)`), `insert(2, 9)` is claimed to produce `[1,2,9]`, with
items at indices below the insertion point unchanged.  Instead the code
produces `[1,1,9]`: the shift loop's bound is `current > 0` rather than
`current > i`, so the item formerly at index 1 is overwritten by a copy of
index 0. -/
theorem insert_at_two_misplaces_items :
    ArrayList.append (mkArrayList 2) (JSVal.num 1) = Except.ok listCap2One ∧
    ArrayList.append listCap2One (JSVal.num 2) = Except.ok listCap2Two ∧
    ArrayList.insert listCap2Two 2 (JSVal.num 9) =
      Except.ok { _storage := [JSVal.num 1, JSVal.num 1, JSVal.num 9, JSVal.vnull],
                  _size := 3 } ∧
    ArrayList.toArray { _storage := [JSVal.num 1, JSVal.num 1, JSVal.num 9, JSVal.vnull],
                        _size := 3 } ≠ [JSVal.num 1, JSVal.num 2, JSVal.num 9] :=
  ⟨rfl, rfl, rfl, by decide⟩

/-- Claim C3: the storage invariant (slots at index `≥ size` hold the null
empty marker) is not preserved by `remove` on a full buffer: on the
reachable state `new ArrayList(1); append(5)`, removing index 0 makes the
shift loop read `storage[1]` past the end of the sealed array, leaving
JavaScript `undefined` — not the `null` marker — in slot 0, which lies in
`[size, capacity)` afterwards. -/
theorem remove_leaves_undefined_slot :
    ArrayList.append (mkArrayList 1) (JSVal.num 5) = Except.ok listCap1Full ∧
    ArrayList.remove listCap1Full 0 =
      Except.ok (JSVal.num 5, { _storage := [JSVal.vundef], _size := 0 }) ∧
    JSVal.vundef ≠ JSVal.vnull :=
  ⟨rfl, rfl, by decide⟩

/-- Claim C4: on the reachable state `new ArrayList(1); append(5);
removeFirst()` the list has `size() = 0`, yet `contains(5)` returns `true`:
`removeFirst` left the stale item 5 in the buffer, and `contains` scans the
whole buffer (`i < this._storage.length`) rather than just `[0, size)`. -/
theorem contains_true_on_empty_list :
    ArrayList.append (mkArrayList 1) (JSVal.num 5) = Except.ok listCap1Full ∧
    ArrayList.removeFirst listCap1Full = (JSVal.num 5, listCap1Stale) ∧
    ArrayList.size listCap1Stale = 0 ∧
    ArrayList.contains listCap1Stale (JSVal.num 5) = Except.ok true :=
  ⟨rfl, rfl, rfl, rfl⟩

/-- Claim C5: `removeItem` can raise an error.  On the reachable state
`new ArrayList(1); append(5); removeFirst()` (size 0, stale item 5 left in
the buffer), `removeItem(5)` finds the stale slot — its scan runs over the
whole buffer — and calls `remove(0)`, which throws
`There is nothing to remove in this list.`; the exception propagates out of
`removeItem` instead of the claimed `-1` return. -/
theorem removeItem_error_on_stale_slot :
    ArrayList.append (mkArrayList 1) (JSVal.num 5) = Except.ok listCap1Full ∧
    ArrayList.removeFirst listCap1Full = (JSVal.num 5, listCap1Stale) ∧
    ArrayList.size listCap1Stale = 0 ∧
    ArrayList.removeItem listCap1Stale (JSVal.num 5) =
      Except.error JSErr.nothingToRemove :=
  ⟨rfl, rfl, rfl, rfl⟩

/-- Claim C6: every `Stack` method body in the source is empty, so on a
fresh stack `pop()` returns `undefined` without raising the documented
EmptyContainer error, `pop()` after `push(5)` returns `undefined` rather
than 5, and `isEmpty()` returns `undefined` rather than `true`. -/
theorem stack_stub_returns_undefined :
    (Stack.pop {}).2 = JSVal.vundef ∧
    (Stack.pop (Stack.push {} (JSVal.num 5)).1).2 = JSVal.vundef ∧
    (Stack.pop (Stack.push {} (JSVal.num 5)).1).2 ≠ JSVal.num 5 ∧
    Stack.isEmpty (Stack.pop (Stack.push {} (JSVal.num 5)).1).1 = JSVal.vundef :=
  ⟨rfl, rfl, by decide, rfl⟩

/-- A three-way comparator on the modelled numbers, for exercising `sort`. -/
def numCmp (a b : JSVal) : Int :=
  match a, b with
  | .num x, .num y => x - y
  | _, _ => 0

/-- Claim C7: `sort` and `sorted` are unimplemented stubs.  On the reachable
list `[2,1]` (two appends into `new ArrayList(2)`), `sort(numCmp)` leaves
the list exactly as it was — `toArray()` is still `[2,1]`, not in
comparator order — and `sorted(numCmp)` returns a fresh empty default list
instead of a sorted copy of the items. -/
theorem sort_stubs_do_nothing :
    ArrayList.append (mkArrayList 2) (JSVal.num 2) =
      Except.ok { _storage := [JSVal.num 2, JSVal.vnull], _size := 1 } ∧
    ArrayList.append { _storage := [JSVal.num 2, JSVal.vnull], _size := 1 } (JSVal.num 1) =
      Except.ok { _storage := [JSVal.num 2, JSVal.num 1], _size := 2 } ∧
    ArrayList.sort { _storage := [JSVal.num 2, JSVal.num 1], _size := 2 } numCmp =
      { _storage := [JSVal.num 2, JSVal.num 1], _size := 2 } ∧
    ArrayList.toArray (ArrayList.sort { _storage := [JSVal.num 2, JSVal.num 1], _size := 2 } numCmp) ≠
      [JSVal.num 1, JSVal.num 2] ∧
    ArrayList.sorted { _storage := [JSVal.num 2, JSVal.num 1], _size := 2 } numCmp = mkArrayList 10 ∧
    ArrayList.toArray (ArrayList.sorted { _storage := [JSVal.num 2, JSVal.num 1], _size := 2 } numCmp) = [] :=
  ⟨rfl, rfl, rfl, by decide, rfl, rfl⟩

theorem storSet_length (st : List JSVal) (i : Nat) (v : JSVal) :
    (storSet st i v).length = st.length := by
  simp [storSet]

theorem foldl_storSet_length (f : Nat → JSVal) :
    ∀ (L : List Nat) (d : List JSVal),
      (L.foldl (fun d i => storSet d i (f i)) d).length = d.length := by
  intro L
  induction L with
  | nil => intro d; rfl
  | cons a t ih => intro d; rw [List.foldl_cons, ih, storSet_length]

theorem _expand_length (l : ArrayList) :
    l._expand._storage.length = l._storage.length * 2 := by
  have h := foldl_storSet_length (storGet l._storage) (List.range l._storage.length)
      (getArray (l._storage.length * 2))
  simp only [getArray, List.length_replicate] at h
  exact h

theorem insertShift_length :
    ∀ (c : Nat) (st : List JSVal), (insertShift st c).length = st.length := by
  intro c
  induction c with
  | zero => intro st; rfl
  | succ c ih => intro st; rw [insertShift, ih, storSet_length]

theorem storGet_storSet_self :
    ∀ (st : List JSVal) (i : Nat) (v : JSVal), i < st.length →
      storGet (storSet st i v) i = v := by
  intro st
  induction st with
  | nil => intro i v h; exact absurd h (Nat.not_lt_zero i)
  | cons a t ih =>
    intro i v h
    cases i with
    | zero => rfl
    | succ j => exact ih j v (Nat.lt_of_succ_lt_succ h)

theorem ensureCapacity_size (l : ArrayList) : l.ensureCapacity._size = l._size := by
  unfold ArrayList.ensureCapacity
  split <;> rfl

theorem ensureCapacity_length (l : ArrayList) (h : WF l) :
    l._size < l.ensureCapacity._storage.length := by
  obtain ⟨hpos, hle⟩ := h
  unfold ArrayList.ensureCapacity
  split
  case isTrue hfull => rw [_expand_length]; omega
  case isFalse hfull => omega

/-- Claim C8, counterexample: the claim quantifies over every non-null item,
but `insert` rejects every falsy item, and `0` is a non-null falsy value:
on a fresh list, `insert(0, 0)` throws the invalid-item error instead of
storing the item, so `peek(0)` can never return it. -/
theorem insert_rejects_nonnull_falsy :
    JSVal.num 0 ≠ JSVal.vnull ∧ JSVal.num 0 ≠ JSVal.vundef ∧
    ArrayList.insert (mkArrayList 2) 0 (JSVal.num 0) =
      Except.error (JSErr.invalidItem (JSVal.num 0)) :=
  ⟨by decide, by decide, rfl⟩

/-- Claim C8 (amended: "non-null item" must be "truthy item", since `insert`
rejects every falsy item — see the counterexample with item `0` — and
"every ArrayList state" is read as every constructible state: a buffer of
the spec's positive capacity holding at least the counted items): for every
such list, every index `0 ≤ i ≤ size` and every truthy `x`, `insert(i, x)`
succeeds, `peek(i)` on the result returns `x`, and the size has grown by
exactly one. -/
theorem insert_then_peek (l : ArrayList) (i : Int) (x : JSVal)
    (hwf : WF l) (h0 : 0 ≤ i) (hi : i ≤ (l._size : Int)) (hx : truthy x = true) :
    ∃ l2, ArrayList.insert l i x = Except.ok l2 ∧
      ArrayList.peek l2 i = Except.ok x ∧
      ArrayList.size l2 = ArrayList.size l + 1 := by
  have hguard : ¬((l._size : Int) < i ∨ i < 0) := by omega
  have hsz := ensureCapacity_size l
  have hlen := ensureCapacity_length l hwf
  refine ⟨⟨storSet (insertShift l.ensureCapacity._storage l.ensureCapacity._size) i.toNat x,
           l.ensureCapacity._size + 1⟩, ?_, ?_, ?_⟩
  · unfold ArrayList.insert
    rw [if_neg (by simp [hx]), if_neg hguard]
  · have hlt : i.toNat <
        (insertShift l.ensureCapacity._storage l.ensureCapacity._size).length := by
      rw [insertShift_length]; omega
    unfold ArrayList.peek
    rw [if_neg (by simp), if_neg (by simp only []; omega)]
    exact congrArg Except.ok (storGet_storSet_self _ _ _ hlt)
  · show l.ensureCapacity._size + 1 = l._size + 1
    rw [hsz]

/-- Witness for the amended claim C8 at a concrete input: a fresh
`ArrayList(2)`, index 0 and item 7 satisfy the hypotheses, and the insert
succeeds with `peek(0) = 7` and size 1. -/
theorem insert_then_peek_witness :
    WF (mkArrayList 2) ∧ (0 : Int) ≤ 0 ∧
    (0 : Int) ≤ ((mkArrayList 2)._size : Int) ∧
    truthy (JSVal.num 7) = true ∧
    (∃ l2, ArrayList.insert (mkArrayList 2) 0 (JSVal.num 7) = Except.ok l2 ∧
      ArrayList.peek l2 0 = Except.ok (JSVal.num 7) ∧
      ArrayList.size l2 = ArrayList.size (mkArrayList 2) + 1) :=
  ⟨by decide, by decide, by decide, rfl,
   insert_then_peek (mkArrayList 2) 0 (JSVal.num 7) (by decide) (by decide)
     (by decide) rfl⟩

/-- Claim C9: on any list of size 0, `removeFirst()` and `removeLast()`
return the `null` sentinel and leave the list exactly as it was, while
`remove(i)` throws the empty-list error for every index `i` (its emptiness
check precedes the bounds check). -/
theorem empty_removals_return_null (l : ArrayList) (h : ArrayList.size l = 0) :
    ArrayList.removeFirst l = (JSVal.vnull, l) ∧
    ArrayList.removeLast l = (JSVal.vnull, l) ∧
    ∀ i : Int, ArrayList.remove l i = Except.error JSErr.nothingToRemove := by
  have h' : l._size = 0 := h
  refine ⟨?_, ?_, ?_⟩
  · unfold ArrayList.removeFirst
    rw [if_pos h']
  · unfold ArrayList.removeLast
    rw [if_pos h']
  · intro i
    unfold ArrayList.remove
    rw [if_pos h']

/-- Witness for claim C9 at a concrete input: a fresh `ArrayList(3)`. -/
theorem empty_removals_return_null_witness :
    ArrayList.size (mkArrayList 3) = 0 ∧
    (ArrayList.removeFirst (mkArrayList 3) = (JSVal.vnull, mkArrayList 3) ∧
     ArrayList.removeLast (mkArrayList 3) = (JSVal.vnull, mkArrayList 3) ∧
     ∀ i : Int, ArrayList.remove (mkArrayList 3) i =
       Except.error JSErr.nothingToRemove) :=
  ⟨rfl, empty_removals_return_null (mkArrayList 3) rfl⟩

/-- Claim C10: for every falsy item (JavaScript `!item`), `insert` — and so
`append` and `prepend`, which delegate to it — throws the invalid-item
error for every index, `contains` throws the invalid-choice error, and
`removeItem` returns `-1` with the list unmodified. -/
theorem falsy_item_handling (l : ArrayList) (i : Int) (item : JSVal)
    (h : truthy item = false) :
    ArrayList.insert l i item = Except.error (JSErr.invalidItem item) ∧
    ArrayList.append l item = Except.error (JSErr.invalidItem item) ∧
    ArrayList.prepend l item = Except.error (JSErr.invalidItem item) ∧
    ArrayList.contains l item = Except.error (JSErr.invalidChoice item) ∧
    ArrayList.removeItem l item = Except.ok (-1, l) := by
  have hins : ∀ j : Int,
      ArrayList.insert l j item = Except.error (JSErr.invalidItem item) := by
    intro j
    unfold ArrayList.insert
    rw [if_pos h]
  refine ⟨hins i, hins _, hins 0, ?_, ?_⟩
  · unfold ArrayList.contains
    rw [if_pos h]
  · unfold ArrayList.removeItem
    rw [if_pos h]

/-- Witness for claim C10: the falsy values named by the claim — `0`,
`false`, the empty string, `NaN`, as well as `null` and `undefined` — are
all rejected, exercised concretely at item `0` on a fresh `ArrayList(2)`. -/
theorem falsy_item_handling_witness :
    truthy (JSVal.num 0) = false ∧ truthy (JSVal.bool false) = false ∧
    truthy (JSVal.str "") = false ∧ truthy JSVal.nan = false ∧
    truthy JSVal.vnull = false ∧ truthy JSVal.vundef = false ∧
    (ArrayList.insert (mkArrayList 2) 0 (JSVal.num 0) =
       Except.error (JSErr.invalidItem (JSVal.num 0)) ∧
     ArrayList.append (mkArrayList 2) (JSVal.num 0) =
       Except.error (JSErr.invalidItem (JSVal.num 0)) ∧
     ArrayList.prepend (mkArrayList 2) (JSVal.num 0) =
       Except.error (JSErr.invalidItem (JSVal.num 0)) ∧
     ArrayList.contains (mkArrayList 2) (JSVal.num 0) =
       Except.error (JSErr.invalidChoice (JSVal.num 0)) ∧
     ArrayList.removeItem (mkArrayList 2) (JSVal.num 0) =
       Except.ok (-1, mkArrayList 2)) :=
  ⟨by decide, by decide, by decide, by decide, by decide, by decide,
   falsy_item_handling (mkArrayList 2) 0 (JSVal.num 0) (by decide)⟩
